import Mathlib

/-!
Shallow embedding of the scoring and backtest logic of the Picks repository
(`Picks.py` and `Backtest.py`).  Metric values and weights are embedded as
rationals; a metric that may be absent (`None` in the source) is an
`Option ℚ`.  The scoring function `calcular_pontuacao`, the classifier
`classificar_acao`, the selection / weighting / monthly-buy steps of the
backtest and the CAGR formula are translated directly from the source.
-/

/-- The fundamental-metric record produced by
`calcular_metricas_fundamentalistas` (Picks.py), restricted to the eleven
fields consumed by `calcular_pontuacao`.  `none` models Python's `None`. -/
structure Metricas where
  ROE : Option ℚ
  ROIC : Option ℚ
  MargemLiquida : Option ℚ
  CrescimentoLucros : Option ℚ
  PL : Option ℚ
  PVP : Option ℚ
  EV_EBITDA : Option ℚ
  DividendYield : Option ℚ
  DividaPatrimonio : Option ℚ
  LiquidezCorrente : Option ℚ
  Payout : Option ℚ

/-- A criterion-weight map (the `pesos` dictionary of Picks.py). -/
structure Pesos where
  ROE : ℚ
  ROIC : ℚ
  MargemLiquida : ℚ
  CrescimentoLucros : ℚ
  PL : ℚ
  PVP : ℚ
  EV_EBITDA : ℚ
  DividendYield : ℚ
  DividaPatrimonio : ℚ
  LiquidezCorrente : ℚ
  Payout : ℚ

/-- The default weight table `obter_pesos_padrao` (Picks.py). -/
def obter_pesos_padrao : Pesos where
  ROE := 6
  ROIC := 6
  MargemLiquida := 7
  CrescimentoLucros := 6
  PL := 7
  PVP := 5
  EV_EBITDA := 5
  DividendYield := 3
  DividaPatrimonio := 7
  LiquidezCorrente := 5
  Payout := 3

/-- ROE sub-score table of `calcular_pontuacao`. -/
def pontuar_roe (roe : ℚ) : ℚ :=
  if roe > 15 then 10
  else if roe > 12 then 8
  else if roe > 10 then 6
  else if roe > 5 then 4
  else if roe > 0 then 2
  else 0

/-- ROIC sub-score table of `calcular_pontuacao`. -/
def pontuar_roic (roic : ℚ) : ℚ :=
  if roic > 12 then 10
  else if roic > 10 then 8
  else if roic > 7 then 6
  else if roic > 5 then 4
  else if roic > 0 then 2
  else 0

/-- Net-margin sub-score table of `calcular_pontuacao`. -/
def pontuar_margem (margem : ℚ) : ℚ :=
  if margem > 20 then 10
  else if margem > 15 then 8
  else if margem > 10 then 6
  else if margem > 5 then 4
  else if margem > 0 then 2
  else 0

/-- Earnings-growth sub-score table of `calcular_pontuacao`. -/
def pontuar_crescimento (crescimento : ℚ) : ℚ :=
  if crescimento > 15 then 10
  else if crescimento > 10 then 8
  else if crescimento > 5 then 6
  else if crescimento > 0 then 4
  else if crescimento > -5 then 2
  else 0

/-- P/E sub-score table of `calcular_pontuacao` (zero when earnings are
negative). -/
def pontuar_pl (pl : ℚ) : ℚ :=
  if pl < 0 then 0
  else if pl < 10 then 10
  else if pl < 15 then 8
  else if pl < 20 then 6
  else if pl < 25 then 4
  else if pl < 30 then 2
  else 0

/-- P/B sub-score table of `calcular_pontuacao` (zero when equity is
negative). -/
def pontuar_pvp (pvp : ℚ) : ℚ :=
  if pvp < 0 then 0
  else if pvp < 1 then 10
  else if pvp < 1.5 then 8
  else if pvp < 2 then 6
  else if pvp < 2.5 then 4
  else if pvp < 3 then 2
  else 0

/-- EV/EBITDA sub-score table of `calcular_pontuacao` (zero when EBITDA is
negative). -/
def pontuar_ev_ebitda (ev : ℚ) : ℚ :=
  if ev < 0 then 0
  else if ev < 6 then 10
  else if ev < 8 then 8
  else if ev < 10 then 6
  else if ev < 12 then 4
  else if ev < 15 then 2
  else 0

/-- Dividend-yield sub-score table of `calcular_pontuacao`. -/
def pontuar_dy (dy : ℚ) : ℚ :=
  if dy > 5 then 10
  else if dy > 4 then 8
  else if dy > 3 then 6
  else if dy > 2 then 4
  else if dy > 1 then 2
  else 0

/-- Debt/equity sub-score table of `calcular_pontuacao` (zero when equity is
negative). -/
def pontuar_divida (divPat : ℚ) : ℚ :=
  if divPat < 0 then 0
  else if divPat < 0.5 then 10
  else if divPat < 1 then 8
  else if divPat < 1.5 then 6
  else if divPat < 2 then 4
  else if divPat < 3 then 2
  else 0

/-- Current-ratio sub-score table of `calcular_pontuacao`. -/
def pontuar_liquidez (liqCor : ℚ) : ℚ :=
  if liqCor > 2 then 10
  else if liqCor > 1.5 then 8
  else if liqCor > 1.2 then 6
  else if liqCor > 1 then 4
  else if liqCor > 0.8 then 2
  else 0

/-- Payout sub-score table of `calcular_pontuacao`. -/
def pontuar_payout (payout : ℚ) : ℚ :=
  if payout < 0 then 0
  else if payout < 30 then 6
  else if payout < 50 then 8
  else if payout < 70 then 10
  else if payout < 90 then 6
  else if payout < 100 then 4
  else 2

/-- One criterion of `calcular_pontuacao`: when the metric is present its
sub-score times the weight is added to the running total and the weight to
the running denominator; an absent metric leaves both untouched. -/
def passo_criterio (acc : ℚ × ℚ) (o : Option ℚ) (f : ℚ → ℚ) (w : ℚ) : ℚ × ℚ :=
  match o with
  | some v => (acc.1 + f v * w, acc.2 + w)
  | none => acc

/-- The `(pontuacao_total, peso_total)` accumulator of `calcular_pontuacao`,
threaded through the eleven criteria in source order. -/
def acumular (m : Metricas) (p : Pesos) : ℚ × ℚ :=
  let a1 := passo_criterio (0, 0) m.ROE pontuar_roe p.ROE
  let a2 := passo_criterio a1 m.ROIC pontuar_roic p.ROIC
  let a3 := passo_criterio a2 m.MargemLiquida pontuar_margem p.MargemLiquida
  let a4 := passo_criterio a3 m.CrescimentoLucros pontuar_crescimento p.CrescimentoLucros
  let a5 := passo_criterio a4 m.PL pontuar_pl p.PL
  let a6 := passo_criterio a5 m.PVP pontuar_pvp p.PVP
  let a7 := passo_criterio a6 m.EV_EBITDA pontuar_ev_ebitda p.EV_EBITDA
  let a8 := passo_criterio a7 m.DividendYield pontuar_dy p.DividendYield
  let a9 := passo_criterio a8 m.DividaPatrimonio pontuar_divida p.DividaPatrimonio
  let a10 := passo_criterio a9 m.LiquidezCorrente pontuar_liquidez p.LiquidezCorrente
  passo_criterio a10 m.Payout pontuar_payout p.Payout

/-- The function `calcular_pontuacao` (Picks.py): the normalized final
score.  The
breakdown dictionary is not needed by the claims; only the returned
`pontuacao_final` is modelled. -/
def calcular_pontuacao (m : Metricas) (p : Pesos) : ℚ :=
  let acc := acumular m p
  if acc.2 > 0 then acc.1 / acc.2 else 0

/-- Numerator contribution of a single criterion: `f v * w` when the metric
is present, `0` otherwise. -/
def critNum (o : Option ℚ) (f : ℚ → ℚ) (w : ℚ) : ℚ :=
  match o with
  | some v => f v * w
  | none => 0

/-- Denominator contribution of a single criterion: its weight when the
metric is present, `0` otherwise. -/
def critDen (o : Option ℚ) (w : ℚ) : ℚ :=
  match o with
  | some _ => w
  | none => 0

/-- Sum over the eleven criteria of sub-score times weight, restricted to
criteria whose metric is present. -/
def pontuacao_total (m : Metricas) (p : Pesos) : ℚ :=
  critNum m.ROE pontuar_roe p.ROE
    + critNum m.ROIC pontuar_roic p.ROIC
    + critNum m.MargemLiquida pontuar_margem p.MargemLiquida
    + critNum m.CrescimentoLucros pontuar_crescimento p.CrescimentoLucros
    + critNum m.PL pontuar_pl p.PL
    + critNum m.PVP pontuar_pvp p.PVP
    + critNum m.EV_EBITDA pontuar_ev_ebitda p.EV_EBITDA
    + critNum m.DividendYield pontuar_dy p.DividendYield
    + critNum m.DividaPatrimonio pontuar_divida p.DividaPatrimonio
    + critNum m.LiquidezCorrente pontuar_liquidez p.LiquidezCorrente
    + critNum m.Payout pontuar_payout p.Payout

/-- Sum of the weights of the criteria whose metric is present. -/
def peso_total (m : Metricas) (p : Pesos) : ℚ :=
  critDen m.ROE p.ROE
    + critDen m.ROIC p.ROIC
    + critDen m.MargemLiquida p.MargemLiquida
    + critDen m.CrescimentoLucros p.CrescimentoLucros
    + critDen m.PL p.PL
    + critDen m.PVP p.PVP
    + critDen m.EV_EBITDA p.EV_EBITDA
    + critDen m.DividendYield p.DividendYield
    + critDen m.DividaPatrimonio p.DividaPatrimonio
    + critDen m.LiquidezCorrente p.LiquidezCorrente
    + critDen m.Payout p.Payout

/-- All eleven weights are non-negative (the spec's weight maps take values
in `[0,10]`). -/
def PesosNonneg (p : Pesos) : Prop :=
  0 ≤ p.ROE ∧ 0 ≤ p.ROIC ∧ 0 ≤ p.MargemLiquida ∧ 0 ≤ p.CrescimentoLucros ∧
    0 ≤ p.PL ∧ 0 ≤ p.PVP ∧ 0 ≤ p.EV_EBITDA ∧ 0 ≤ p.DividendYield ∧
    0 ≤ p.DividaPatrimonio ∧ 0 ≤ p.LiquidezCorrente ∧ 0 ≤ p.Payout

lemma passo_criterio_fst (acc : ℚ × ℚ) (o : Option ℚ) (f : ℚ → ℚ) (w : ℚ) :
    (passo_criterio acc o f w).1 = acc.1 + critNum o f w := by
  cases o <;> simp [passo_criterio, critNum]

lemma passo_criterio_snd (acc : ℚ × ℚ) (o : Option ℚ) (f : ℚ → ℚ) (w : ℚ) :
    (passo_criterio acc o f w).2 = acc.2 + critDen o w := by
  cases o <;> simp [passo_criterio, critDen]

lemma acumular_fst (m : Metricas) (p : Pesos) :
    (acumular m p).1 = pontuacao_total m p := by
  simp only [acumular, passo_criterio_fst, pontuacao_total]
  ring

lemma acumular_snd (m : Metricas) (p : Pesos) :
    (acumular m p).2 = peso_total m p := by
  simp only [acumular, passo_criterio_snd, peso_total]
  ring

lemma calcular_pontuacao_eq (m : Metricas) (p : Pesos) :
    calcular_pontuacao m p =
      if peso_total m p > 0 then pontuacao_total m p / peso_total m p else 0 := by
  simp only [calcular_pontuacao, acumular_fst, acumular_snd]

/-- Python's `metricas.get(key, 0) or 0`: an absent metric reads as `0` in
the classifier's threshold tests (a stored `0` also reads as `0`). -/
def orZero (o : Option ℚ) : ℚ :=
  match o with
  | some v => v
  | none => 0

/-- The classifier `classificar_acao` (Picks.py): derives the category-label
list from the
final score and a few ratio thresholds, with the two-way fallback when no
specific category matches. -/
def classificar_acao (pontuacao_final : ℚ) (m : Metricas) : List String :=
  let categorias :=
    (if pontuacao_final ≥ 7 then ["Melhores Ações Brasileiras"] else []) ++
    (if orZero m.ROE > 10 ∧ orZero m.DividaPatrimonio < 1.5 then
      ["Empresas Sólidas"] else []) ++
    (if orZero m.DividendYield > 3 ∧ orZero m.Payout < 80 then
      ["Ações Defensivas"] else []) ++
    (if (orZero m.PL < 15 ∧ orZero m.PL > 0) ∨
        (orZero m.PVP < 1.5 ∧ orZero m.PVP > 0) then
      ["Ações Baratas"] else [])
  if categorias = [] then
    if pontuacao_final ≥ 5 then ["Potencial Moderado"] else ["Baixo Potencial"]
  else categorias

/-- The all-`None` metric record. -/
def metricasVazias : Metricas where
  ROE := none
  ROIC := none
  MargemLiquida := none
  CrescimentoLucros := none
  PL := none
  PVP := none
  EV_EBITDA := none
  DividendYield := none
  DividaPatrimonio := none
  LiquidezCorrente := none
  Payout := none

/-! ## Backtest.py -/

/-- Candidate selection of Backtest.py: keep the tickers scoring at least 6;
if none does, fall back to the first five entries of the score table (which
is sorted by descending score). -/
def selecionar (df_pont : List (String × ℚ)) : List (String × ℚ) :=
  let sel := df_pont.filter (fun ts => 6 ≤ ts.2)
  if sel.isEmpty then df_pont.take 5 else sel

/-- The cap `limite_porc_ativo` (Backtest.py): at most 20% per asset. -/
def limite_porc_ativo : ℚ := 1 / 5

/-- Target-weight computation of Backtest.py: score-proportional weights over
the selected tickers, clipped at `limite_porc_ativo`, then renormalized. -/
def pesos (selecionados : List (String × ℚ)) : List (String × ℚ) :=
  let soma := (selecionados.map Prod.snd).sum
  let clipped :=
    selecionados.map (fun ts => (ts.1, min (ts.2 / soma) limite_porc_ativo))
  let soma2 := (clipped.map Prod.snd).sum
  clipped.map (fun ts => (ts.1, ts.2 / soma2))

/-- The monthly buy step of Backtest.py: current values of the selected
holdings, target allocation `peso × (current total + contribution)`,
required buy `max 0 (target − current)`, and an integer number of shares
bought by floor division when the price is positive. -/
def comprar (carteira : String → ℤ) (selecionados : List String)
    (peso preco : String → ℚ) (aporte : ℚ) : String → ℤ :=
  let valores_atuais := fun t => (carteira t : ℚ) * preco t
  let total_antes := (selecionados.map valores_atuais).sum
  let total_novo := total_antes + aporte
  fun t =>
    if t ∈ selecionados ∧ 0 < preco t then
      carteira t + ⌊max 0 (peso t * total_novo - valores_atuais t) / preco t⌋
    else carteira t

/-- Iterating the monthly buy step over a list of per-date price tables with
a fixed selection and weight table. -/
def simular_carteira (selecionados : List String) (peso : String → ℚ)
    (precos : List (String → ℚ)) (aporte : ℚ) (c0 : String → ℤ) :
    String → ℤ :=
  precos.foldl (fun c pf => comprar c selecionados peso pf aporte) c0

/-- Portfolio value recorded by Backtest.py after a buy step: holdings times
price, summed over the selected tickers. -/
def patrimonio (carteira : String → ℤ) (selecionados : List String)
    (preco : String → ℚ) : ℚ :=
  (selecionados.map (fun t => (carteira t : ℚ) * preco t)).sum

/-- The benchmark step of Backtest.py: each month the same contribution buys
`aporte // preco` benchmark units when the price is positive, otherwise 0. -/
def passo_ibov (qtd : ℤ) (preco aporte : ℚ) : ℤ :=
  if preco > 0 then qtd + ⌊aporte / preco⌋ else qtd

/-- The metric `cagr_carteira` (Backtest.py):
`(final_value / total_contributed) ^ (1 / years) − 1`. -/
noncomputable def cagr (valor_final total_aportado : ℚ) (anos : ℝ) : ℝ :=
  ((valor_final : ℝ) / (total_aportado : ℝ)) ^ ((1 : ℝ) / anos) - 1

/-! ## Scoring: weighted-average shape and bounds -/

lemma critDen_nonneg (o : Option ℚ) {w : ℚ} (hw : 0 ≤ w) :
    0 ≤ critDen o w := by
  cases o <;> simp [critDen, hw]

lemma peso_total_nonneg (m : Metricas) (p : Pesos) (hp : PesosNonneg p) :
    0 ≤ peso_total m p := by
  obtain ⟨h1, h2, h3, h4, h5, h6, h7, h8, h9, h10, h11⟩ := hp
  unfold peso_total
  have := critDen_nonneg m.ROE h1
  have := critDen_nonneg m.ROIC h2
  have := critDen_nonneg m.MargemLiquida h3
  have := critDen_nonneg m.CrescimentoLucros h4
  have := critDen_nonneg m.PL h5
  have := critDen_nonneg m.PVP h6
  have := critDen_nonneg m.EV_EBITDA h7
  have := critDen_nonneg m.DividendYield h8
  have := critDen_nonneg m.DividaPatrimonio h9
  have := critDen_nonneg m.LiquidezCorrente h10
  have := critDen_nonneg m.Payout h11
  linarith

/-- C1: the final score of `calcular_pontuacao` is the sum of
sub-score × weight over the criteria with data, divided by the sum of the
weights of those criteria; absent criteria contribute to neither sum, and a
zero denominator yields the score 0. -/
theorem pontuacao_final_media_ponderada (m : Metricas) (p : Pesos)
    (hp : PesosNonneg p) :
    (peso_total m p = 0 → calcular_pontuacao m p = 0) ∧
    (peso_total m p ≠ 0 →
      calcular_pontuacao m p = pontuacao_total m p / peso_total m p) := by
  constructor
  · intro h0
    rw [calcular_pontuacao_eq, h0]
    norm_num
  · intro hne
    rw [calcular_pontuacao_eq,
      if_pos (lt_of_le_of_ne (peso_total_nonneg m p hp) (Ne.symm hne))]

theorem pontuacao_final_media_ponderada_witness :
    calcular_pontuacao metricasVazias obter_pesos_padrao = 0 :=
  (pontuacao_final_media_ponderada metricasVazias obter_pesos_padrao
    (by norm_num [PesosNonneg, obter_pesos_padrao])).1
    (by simp [peso_total, metricasVazias, critDen])

lemma pontuar_roe_bounds (x : ℚ) : 0 ≤ pontuar_roe x ∧ pontuar_roe x ≤ 10 := by
  unfold pontuar_roe; split_ifs <;> norm_num

lemma pontuar_roic_bounds (x : ℚ) :
    0 ≤ pontuar_roic x ∧ pontuar_roic x ≤ 10 := by
  unfold pontuar_roic; split_ifs <;> norm_num

lemma pontuar_margem_bounds (x : ℚ) :
    0 ≤ pontuar_margem x ∧ pontuar_margem x ≤ 10 := by
  unfold pontuar_margem; split_ifs <;> norm_num

lemma pontuar_crescimento_bounds (x : ℚ) :
    0 ≤ pontuar_crescimento x ∧ pontuar_crescimento x ≤ 10 := by
  unfold pontuar_crescimento; split_ifs <;> norm_num

lemma pontuar_pl_bounds (x : ℚ) : 0 ≤ pontuar_pl x ∧ pontuar_pl x ≤ 10 := by
  unfold pontuar_pl; split_ifs <;> norm_num

lemma pontuar_pvp_bounds (x : ℚ) : 0 ≤ pontuar_pvp x ∧ pontuar_pvp x ≤ 10 := by
  unfold pontuar_pvp; split_ifs <;> norm_num

lemma pontuar_ev_ebitda_bounds (x : ℚ) :
    0 ≤ pontuar_ev_ebitda x ∧ pontuar_ev_ebitda x ≤ 10 := by
  unfold pontuar_ev_ebitda; split_ifs <;> norm_num

lemma pontuar_dy_bounds (x : ℚ) : 0 ≤ pontuar_dy x ∧ pontuar_dy x ≤ 10 := by
  unfold pontuar_dy; split_ifs <;> norm_num

lemma pontuar_divida_bounds (x : ℚ) :
    0 ≤ pontuar_divida x ∧ pontuar_divida x ≤ 10 := by
  unfold pontuar_divida; split_ifs <;> norm_num

lemma pontuar_liquidez_bounds (x : ℚ) :
    0 ≤ pontuar_liquidez x ∧ pontuar_liquidez x ≤ 10 := by
  unfold pontuar_liquidez; split_ifs <;> norm_num

lemma pontuar_payout_bounds (x : ℚ) :
    0 ≤ pontuar_payout x ∧ pontuar_payout x ≤ 10 := by
  unfold pontuar_payout; split_ifs <;> norm_num

lemma critNum_bounds (o : Option ℚ) (f : ℚ → ℚ) {w : ℚ} (hw : 0 ≤ w)
    (hf : ∀ x, 0 ≤ f x ∧ f x ≤ 10) :
    0 ≤ critNum o f w ∧ critNum o f w ≤ 10 * critDen o w := by
  cases o with
  | none => simp [critNum, critDen]
  | some v =>
    exact ⟨mul_nonneg (hf v).1 hw,
      by simpa [critNum, critDen] using mul_le_mul_of_nonneg_right (hf v).2 hw⟩

lemma pontuacao_bounds (m : Metricas) (p : Pesos) (hp : PesosNonneg p) :
    0 ≤ calcular_pontuacao m p ∧ calcular_pontuacao m p ≤ 10 := by
  obtain ⟨h1, h2, h3, h4, h5, h6, h7, h8, h9, h10, h11⟩ := hp
  have b1 := critNum_bounds m.ROE pontuar_roe h1 pontuar_roe_bounds
  have b2 := critNum_bounds m.ROIC pontuar_roic h2 pontuar_roic_bounds
  have b3 := critNum_bounds m.MargemLiquida pontuar_margem h3
    pontuar_margem_bounds
  have b4 := critNum_bounds m.CrescimentoLucros pontuar_crescimento h4
    pontuar_crescimento_bounds
  have b5 := critNum_bounds m.PL pontuar_pl h5 pontuar_pl_bounds
  have b6 := critNum_bounds m.PVP pontuar_pvp h6 pontuar_pvp_bounds
  have b7 := critNum_bounds m.EV_EBITDA pontuar_ev_ebitda h7
    pontuar_ev_ebitda_bounds
  have b8 := critNum_bounds m.DividendYield pontuar_dy h8 pontuar_dy_bounds
  have b9 := critNum_bounds m.DividaPatrimonio pontuar_divida h9
    pontuar_divida_bounds
  have b10 := critNum_bounds m.LiquidezCorrente pontuar_liquidez h10
    pontuar_liquidez_bounds
  have b11 := critNum_bounds m.Payout pontuar_payout h11 pontuar_payout_bounds
  rw [calcular_pontuacao_eq]
  split_ifs with hd
  · constructor
    · apply div_nonneg _ hd.le
      unfold pontuacao_total
      linarith [b1.1, b2.1, b3.1, b4.1, b5.1, b6.1, b7.1, b8.1, b9.1, b10.1,
        b11.1]
    · rw [div_le_iff₀ hd]
      unfold pontuacao_total peso_total at *
      linarith [b1.2, b2.2, b3.2, b4.2, b5.2, b6.2, b7.2, b8.2, b9.2, b10.2,
        b11.2]
  · norm_num

/-- C2: on a record in which every criterion is present, with non-negative
weights, the final score lies in `[0, 10]`. -/
theorem pontuacao_final_entre_0_e_10 (p : Pesos) (hp : PesosNonneg p)
    (v1 v2 v3 v4 v5 v6 v7 v8 v9 v10 v11 : ℚ) :
    0 ≤ calcular_pontuacao
        ⟨some v1, some v2, some v3, some v4, some v5, some v6, some v7,
          some v8, some v9, some v10, some v11⟩ p ∧
      calcular_pontuacao
        ⟨some v1, some v2, some v3, some v4, some v5, some v6, some v7,
          some v8, some v9, some v10, some v11⟩ p ≤ 10 :=
  pontuacao_bounds _ p hp

theorem pontuacao_final_entre_0_e_10_witness :
    0 ≤ calcular_pontuacao
        ⟨some 20, some 12, some 15, some 8, some 9, some 2, some 7, some 4,
          some 1, some 3, some 50⟩ obter_pesos_padrao ∧
      calcular_pontuacao
        ⟨some 20, some 12, some 15, some 8, some 9, some 2, some 7, some 4,
          some 1, some 3, some 50⟩ obter_pesos_padrao ≤ 10 :=
  pontuacao_final_entre_0_e_10 obter_pesos_padrao
    (by norm_num [PesosNonneg, obter_pesos_padrao]) 20 12 15 8 9 2 7 4 1 3 50

/-! ## Scoring: monotonicity in each criterion -/

lemma final_mono_gen {n1 n2 d : ℚ} (h : n1 ≤ n2) :
    (if d > 0 then n1 / d else 0) ≤ (if d > 0 then n2 / d else 0) := by
  split_ifs with hd
  · gcongr
  · exact le_refl 0

lemma pontuar_roe_mono {x y : ℚ} (hxy : x ≤ y) :
    pontuar_roe x ≤ pontuar_roe y := by
  unfold pontuar_roe; split_ifs <;> linarith

lemma final_mono_ROE (m : Metricas) (p : Pesos) (hp : PesosNonneg p)
    (x y : ℚ) (hxy : x ≤ y) :
    calcular_pontuacao { m with ROE := some x } p ≤
      calcular_pontuacao { m with ROE := some y } p := by
  obtain ⟨h1, h2, h3, h4, h5, h6, h7, h8, h9, h10, h11⟩ := hp
  rw [calcular_pontuacao_eq, calcular_pontuacao_eq]
  simp only [pontuacao_total, peso_total, critNum, critDen]
  apply final_mono_gen
  have hsub := mul_le_mul_of_nonneg_right (pontuar_roe_mono hxy) h1
  linarith

lemma pontuar_roic_mono {x y : ℚ} (hxy : x ≤ y) :
    pontuar_roic x ≤ pontuar_roic y := by
  unfold pontuar_roic; split_ifs <;> linarith

lemma final_mono_ROIC (m : Metricas) (p : Pesos) (hp : PesosNonneg p)
    (x y : ℚ) (hxy : x ≤ y) :
    calcular_pontuacao { m with ROIC := some x } p ≤
      calcular_pontuacao { m with ROIC := some y } p := by
  obtain ⟨h1, h2, h3, h4, h5, h6, h7, h8, h9, h10, h11⟩ := hp
  rw [calcular_pontuacao_eq, calcular_pontuacao_eq]
  simp only [pontuacao_total, peso_total, critNum, critDen]
  apply final_mono_gen
  have hsub := mul_le_mul_of_nonneg_right (pontuar_roic_mono hxy) h2
  linarith

lemma pontuar_margem_mono {x y : ℚ} (hxy : x ≤ y) :
    pontuar_margem x ≤ pontuar_margem y := by
  unfold pontuar_margem; split_ifs <;> linarith

lemma final_mono_MargemLiquida (m : Metricas) (p : Pesos) (hp : PesosNonneg p)
    (x y : ℚ) (hxy : x ≤ y) :
    calcular_pontuacao { m with MargemLiquida := some x } p ≤
      calcular_pontuacao { m with MargemLiquida := some y } p := by
  obtain ⟨h1, h2, h3, h4, h5, h6, h7, h8, h9, h10, h11⟩ := hp
  rw [calcular_pontuacao_eq, calcular_pontuacao_eq]
  simp only [pontuacao_total, peso_total, critNum, critDen]
  apply final_mono_gen
  have hsub := mul_le_mul_of_nonneg_right (pontuar_margem_mono hxy) h3
  linarith

lemma pontuar_crescimento_mono {x y : ℚ} (hxy : x ≤ y) :
    pontuar_crescimento x ≤ pontuar_crescimento y := by
  unfold pontuar_crescimento; split_ifs <;> linarith

lemma final_mono_CrescimentoLucros (m : Metricas) (p : Pesos) (hp : PesosNonneg p)
    (x y : ℚ) (hxy : x ≤ y) :
    calcular_pontuacao { m with CrescimentoLucros := some x } p ≤
      calcular_pontuacao { m with CrescimentoLucros := some y } p := by
  obtain ⟨h1, h2, h3, h4, h5, h6, h7, h8, h9, h10, h11⟩ := hp
  rw [calcular_pontuacao_eq, calcular_pontuacao_eq]
  simp only [pontuacao_total, peso_total, critNum, critDen]
  apply final_mono_gen
  have hsub := mul_le_mul_of_nonneg_right (pontuar_crescimento_mono hxy) h4
  linarith

lemma pontuar_dy_mono {x y : ℚ} (hxy : x ≤ y) :
    pontuar_dy x ≤ pontuar_dy y := by
  unfold pontuar_dy; split_ifs <;> linarith

lemma final_mono_DividendYield (m : Metricas) (p : Pesos) (hp : PesosNonneg p)
    (x y : ℚ) (hxy : x ≤ y) :
    calcular_pontuacao { m with DividendYield := some x } p ≤
      calcular_pontuacao { m with DividendYield := some y } p := by
  obtain ⟨h1, h2, h3, h4, h5, h6, h7, h8, h9, h10, h11⟩ := hp
  rw [calcular_pontuacao_eq, calcular_pontuacao_eq]
  simp only [pontuacao_total, peso_total, critNum, critDen]
  apply final_mono_gen
  have hsub := mul_le_mul_of_nonneg_right (pontuar_dy_mono hxy) h8
  linarith

lemma pontuar_liquidez_mono {x y : ℚ} (hxy : x ≤ y) :
    pontuar_liquidez x ≤ pontuar_liquidez y := by
  unfold pontuar_liquidez; split_ifs <;> linarith

lemma final_mono_LiquidezCorrente (m : Metricas) (p : Pesos) (hp : PesosNonneg p)
    (x y : ℚ) (hxy : x ≤ y) :
    calcular_pontuacao { m with LiquidezCorrente := some x } p ≤
      calcular_pontuacao { m with LiquidezCorrente := some y } p := by
  obtain ⟨h1, h2, h3, h4, h5, h6, h7, h8, h9, h10, h11⟩ := hp
  rw [calcular_pontuacao_eq, calcular_pontuacao_eq]
  simp only [pontuacao_total, peso_total, critNum, critDen]
  apply final_mono_gen
  have hsub := mul_le_mul_of_nonneg_right (pontuar_liquidez_mono hxy) h10
  linarith

lemma pontuar_pl_anti {x y : ℚ} (hx : 0 < x) (hxy : x ≤ y) :
    pontuar_pl y ≤ pontuar_pl x := by
  unfold pontuar_pl; split_ifs <;> linarith

lemma final_anti_PL (m : Metricas) (p : Pesos) (hp : PesosNonneg p)
    (x y : ℚ) (hx : 0 < x) (hxy : x ≤ y) :
    calcular_pontuacao { m with PL := some y } p ≤
      calcular_pontuacao { m with PL := some x } p := by
  obtain ⟨h1, h2, h3, h4, h5, h6, h7, h8, h9, h10, h11⟩ := hp
  rw [calcular_pontuacao_eq, calcular_pontuacao_eq]
  simp only [pontuacao_total, peso_total, critNum, critDen]
  apply final_mono_gen
  have hsub := mul_le_mul_of_nonneg_right (pontuar_pl_anti hx hxy) h5
  linarith

lemma pontuar_pvp_anti {x y : ℚ} (hx : 0 < x) (hxy : x ≤ y) :
    pontuar_pvp y ≤ pontuar_pvp x := by
  unfold pontuar_pvp; split_ifs <;> linarith

lemma final_anti_PVP (m : Metricas) (p : Pesos) (hp : PesosNonneg p)
    (x y : ℚ) (hx : 0 < x) (hxy : x ≤ y) :
    calcular_pontuacao { m with PVP := some y } p ≤
      calcular_pontuacao { m with PVP := some x } p := by
  obtain ⟨h1, h2, h3, h4, h5, h6, h7, h8, h9, h10, h11⟩ := hp
  rw [calcular_pontuacao_eq, calcular_pontuacao_eq]
  simp only [pontuacao_total, peso_total, critNum, critDen]
  apply final_mono_gen
  have hsub := mul_le_mul_of_nonneg_right (pontuar_pvp_anti hx hxy) h6
  linarith

lemma pontuar_ev_ebitda_anti {x y : ℚ} (hx : 0 < x) (hxy : x ≤ y) :
    pontuar_ev_ebitda y ≤ pontuar_ev_ebitda x := by
  unfold pontuar_ev_ebitda; split_ifs <;> linarith

lemma final_anti_EV_EBITDA (m : Metricas) (p : Pesos) (hp : PesosNonneg p)
    (x y : ℚ) (hx : 0 < x) (hxy : x ≤ y) :
    calcular_pontuacao { m with EV_EBITDA := some y } p ≤
      calcular_pontuacao { m with EV_EBITDA := some x } p := by
  obtain ⟨h1, h2, h3, h4, h5, h6, h7, h8, h9, h10, h11⟩ := hp
  rw [calcular_pontuacao_eq, calcular_pontuacao_eq]
  simp only [pontuacao_total, peso_total, critNum, critDen]
  apply final_mono_gen
  have hsub := mul_le_mul_of_nonneg_right (pontuar_ev_ebitda_anti hx hxy) h7
  linarith

lemma pontuar_divida_anti {x y : ℚ} (hx : 0 < x) (hxy : x ≤ y) :
    pontuar_divida y ≤ pontuar_divida x := by
  unfold pontuar_divida; split_ifs <;> linarith

lemma final_anti_DividaPatrimonio (m : Metricas) (p : Pesos) (hp : PesosNonneg p)
    (x y : ℚ) (hx : 0 < x) (hxy : x ≤ y) :
    calcular_pontuacao { m with DividaPatrimonio := some y } p ≤
      calcular_pontuacao { m with DividaPatrimonio := some x } p := by
  obtain ⟨h1, h2, h3, h4, h5, h6, h7, h8, h9, h10, h11⟩ := hp
  rw [calcular_pontuacao_eq, calcular_pontuacao_eq]
  simp only [pontuacao_total, peso_total, critNum, critDen]
  apply final_mono_gen
  have hsub := mul_le_mul_of_nonneg_right (pontuar_divida_anti hx hxy) h9
  linarith
/-- C3: holding the other metrics and the weights (non-negative, as weight
maps are) fixed, the final score is non-decreasing in ROE, ROIC, net margin,
earnings growth, dividend yield and current ratio, and non-increasing in
P/E, P/B, EV/EBITDA and debt/equity over positive values of those fields. -/
theorem pontuacao_final_monotona :
    (∀ (m : Metricas) (p : Pesos), PesosNonneg p → ∀ x y : ℚ, x ≤ y →
      calcular_pontuacao { m with ROE := some x } p ≤
        calcular_pontuacao { m with ROE := some y } p) ∧
    (∀ (m : Metricas) (p : Pesos), PesosNonneg p → ∀ x y : ℚ, x ≤ y →
      calcular_pontuacao { m with ROIC := some x } p ≤
        calcular_pontuacao { m with ROIC := some y } p) ∧
    (∀ (m : Metricas) (p : Pesos), PesosNonneg p → ∀ x y : ℚ, x ≤ y →
      calcular_pontuacao { m with MargemLiquida := some x } p ≤
        calcular_pontuacao { m with MargemLiquida := some y } p) ∧
    (∀ (m : Metricas) (p : Pesos), PesosNonneg p → ∀ x y : ℚ, x ≤ y →
      calcular_pontuacao { m with CrescimentoLucros := some x } p ≤
        calcular_pontuacao { m with CrescimentoLucros := some y } p) ∧
    (∀ (m : Metricas) (p : Pesos), PesosNonneg p → ∀ x y : ℚ, x ≤ y →
      calcular_pontuacao { m with DividendYield := some x } p ≤
        calcular_pontuacao { m with DividendYield := some y } p) ∧
    (∀ (m : Metricas) (p : Pesos), PesosNonneg p → ∀ x y : ℚ, x ≤ y →
      calcular_pontuacao { m with LiquidezCorrente := some x } p ≤
        calcular_pontuacao { m with LiquidezCorrente := some y } p) ∧
    (∀ (m : Metricas) (p : Pesos), PesosNonneg p → ∀ x y : ℚ, 0 < x → x ≤ y →
      calcular_pontuacao { m with PL := some y } p ≤
        calcular_pontuacao { m with PL := some x } p) ∧
    (∀ (m : Metricas) (p : Pesos), PesosNonneg p → ∀ x y : ℚ, 0 < x → x ≤ y →
      calcular_pontuacao { m with PVP := some y } p ≤
        calcular_pontuacao { m with PVP := some x } p) ∧
    (∀ (m : Metricas) (p : Pesos), PesosNonneg p → ∀ x y : ℚ, 0 < x → x ≤ y →
      calcular_pontuacao { m with EV_EBITDA := some y } p ≤
        calcular_pontuacao { m with EV_EBITDA := some x } p) ∧
    (∀ (m : Metricas) (p : Pesos), PesosNonneg p → ∀ x y : ℚ, 0 < x → x ≤ y →
      calcular_pontuacao { m with DividaPatrimonio := some y } p ≤
        calcular_pontuacao { m with DividaPatrimonio := some x } p) :=
  ⟨final_mono_ROE, final_mono_ROIC, final_mono_MargemLiquida,
    final_mono_CrescimentoLucros, final_mono_DividendYield,
    final_mono_LiquidezCorrente, final_anti_PL, final_anti_PVP,
    final_anti_EV_EBITDA, final_anti_DividaPatrimonio⟩

theorem pontuacao_final_monotona_witness :
    calcular_pontuacao { metricasVazias with ROE := some 1 }
        obter_pesos_padrao ≤
      calcular_pontuacao { metricasVazias with ROE := some 16 }
        obter_pesos_padrao ∧
    calcular_pontuacao { metricasVazias with PL := some 40 }
        obter_pesos_padrao ≤
      calcular_pontuacao { metricasVazias with PL := some 5 }
        obter_pesos_padrao :=
  ⟨pontuacao_final_monotona.1 metricasVazias obter_pesos_padrao
      (by norm_num [PesosNonneg, obter_pesos_padrao]) 1 16 (by norm_num),
    pontuacao_final_monotona.2.2.2.2.2.2.1 metricasVazias obter_pesos_padrao
      (by norm_num [PesosNonneg, obter_pesos_padrao]) 5 40 (by norm_num)
      (by norm_num)⟩
/-! ## Classification -/

/-- A record whose only present metric is a negative P/E. -/
def metricasPLNegativo : Metricas := { metricasVazias with PL := some (-5) }

lemma pontuacao_plneg : calcular_pontuacao metricasPLNegativo obter_pesos_padrao = 0 := by
  rw [calcular_pontuacao_eq]
  norm_num [pontuacao_total, peso_total, critNum, critDen, metricasPLNegativo,
    metricasVazias, obter_pesos_padrao, pontuar_pl]

/-- C4 counterexample: the record whose only datum is P/E = −5 satisfies the
claimed "Value" threshold (P/E < 15) yet the code does not label it
"Ações Baratas": it returns exactly ["Baixo Potencial"]. -/
theorem classificar_acao_baratas_contraexemplo :
    metricasPLNegativo.PL = some (-5) ∧ ((-5 : ℚ) < 15) ∧
      classificar_acao
        (calcular_pontuacao metricasPLNegativo obter_pesos_padrao)
        metricasPLNegativo = ["Baixo Potencial"] ∧
      "Ações Baratas" ∉
        classificar_acao
          (calcular_pontuacao metricasPLNegativo obter_pesos_padrao)
          metricasPLNegativo := by
  refine ⟨rfl, by norm_num, ?_, ?_⟩
  · rw [pontuacao_plneg]
    norm_num [classificar_acao, orZero, metricasPLNegativo, metricasVazias]
  · rw [pontuacao_plneg]
    norm_num [classificar_acao, orZero, metricasPLNegativo, metricasVazias]
    decide

/-- C4 amended: `classificar_acao` returns exactly the labels whose
threshold holds, where absent metrics read as 0 and the "Ações Baratas"
thresholds additionally require the multiple to be positive; when no
specific label applies the fallback is "Potencial Moderado" (score ≥ 5) or
"Baixo Potencial", and the all-`None` record scores 0 and is labelled
exactly ["Baixo Potencial"]. -/
theorem classificar_acao_caracterizacao :
    (∀ (pf : ℚ) (m : Metricas),
      ("Melhores Ações Brasileiras" ∈ classificar_acao pf m ↔ pf ≥ 7) ∧
      ("Empresas Sólidas" ∈ classificar_acao pf m ↔
        orZero m.ROE > 10 ∧ orZero m.DividaPatrimonio < 1.5) ∧
      ("Ações Defensivas" ∈ classificar_acao pf m ↔
        orZero m.DividendYield > 3 ∧ orZero m.Payout < 80) ∧
      ("Ações Baratas" ∈ classificar_acao pf m ↔
        ((orZero m.PL < 15 ∧ orZero m.PL > 0) ∨
          (orZero m.PVP < 1.5 ∧ orZero m.PVP > 0))) ∧
      ("Potencial Moderado" ∈ classificar_acao pf m ↔
        (¬pf ≥ 7 ∧ ¬(orZero m.ROE > 10 ∧ orZero m.DividaPatrimonio < 1.5) ∧
          ¬(orZero m.DividendYield > 3 ∧ orZero m.Payout < 80) ∧
          ¬((orZero m.PL < 15 ∧ orZero m.PL > 0) ∨
            (orZero m.PVP < 1.5 ∧ orZero m.PVP > 0)) ∧ pf ≥ 5)) ∧
      ("Baixo Potencial" ∈ classificar_acao pf m ↔
        (¬pf ≥ 7 ∧ ¬(orZero m.ROE > 10 ∧ orZero m.DividaPatrimonio < 1.5) ∧
          ¬(orZero m.DividendYield > 3 ∧ orZero m.Payout < 80) ∧
          ¬((orZero m.PL < 15 ∧ orZero m.PL > 0) ∨
            (orZero m.PVP < 1.5 ∧ orZero m.PVP > 0)) ∧ ¬pf ≥ 5))) ∧
    (∀ p : Pesos, calcular_pontuacao metricasVazias p = 0 ∧
      classificar_acao (calcular_pontuacao metricasVazias p) metricasVazias =
        ["Baixo Potencial"]) := by
  constructor
  · intro pf m
    by_cases hA : pf ≥ 7 <;>
      by_cases hB : orZero m.ROE > 10 ∧ orZero m.DividaPatrimonio < 1.5 <;>
      by_cases hC : orZero m.DividendYield > 3 ∧ orZero m.Payout < 80 <;>
      by_cases hD : (orZero m.PL < 15 ∧ orZero m.PL > 0) ∨
        (orZero m.PVP < 1.5 ∧ orZero m.PVP > 0) <;>
      by_cases hE : pf ≥ 5 <;>
      simp [classificar_acao, hA, hB, hC, hD, hE]
  · intro p
    have h0 : calcular_pontuacao metricasVazias p = 0 := by
      rw [calcular_pontuacao_eq]
      norm_num [peso_total, critDen, metricasVazias]
    refine ⟨h0, ?_⟩
    rw [h0]
    norm_num [classificar_acao, orZero, metricasVazias]

/-! ## Backtest: selection, weights, buying -/

/-- C5: on a score table sorted by descending score, the simulator keeps
exactly the tickers scoring at least 6; when none qualifies it falls back to
the first five rows, which dominate every dropped row in score, and the
selection is non-empty whenever the table is. -/
theorem selecionar_cutoff_fallback :
    ∀ df_pont : List (String × ℚ),
      List.Sorted (fun a b : String × ℚ => b.2 ≤ a.2) df_pont →
      ((df_pont.filter (fun ts => 6 ≤ ts.2) ≠ [] →
          selecionar df_pont = df_pont.filter (fun ts => 6 ≤ ts.2)) ∧
        (df_pont.filter (fun ts => 6 ≤ ts.2) = [] →
          selecionar df_pont = df_pont.take 5 ∧
            ∀ a ∈ df_pont.take 5, ∀ b ∈ df_pont.drop 5, b.2 ≤ a.2) ∧
        (df_pont ≠ [] → selecionar df_pont ≠ [])) := by
  intro df hs
  refine ⟨?_, ?_, ?_⟩
  · intro h
    simp [selecionar, List.isEmpty_iff, h]
  · intro h
    refine ⟨by simp [selecionar, List.isEmpty_iff, h], ?_⟩
    have h2 := hs
    rw [← List.take_append_drop 5 df] at h2
    exact (List.pairwise_append.mp h2).2.2
  · intro hne
    rcases h : df.filter (fun ts => 6 ≤ ts.2) with _ | ⟨a, l⟩
    · simp [selecionar, List.isEmpty_iff, h, List.take_eq_nil_iff, hne]
    · simp [selecionar, List.isEmpty_iff, h]

theorem selecionar_cutoff_fallback_witness :
    selecionar [("A", (7 : ℚ)), ("B", 3)] =
      [("A", (7 : ℚ)), ("B", 3)].filter (fun ts => 6 ≤ ts.2) :=
  (selecionar_cutoff_fallback [("A", 7), ("B", 3)]
      (by simp [List.sorted_cons]; norm_num)).1
    (by norm_num [List.filter])

lemma sum_map_div (l : List (String × ℚ)) (f : String × ℚ → ℚ) (c : ℚ) :
    (l.map (fun ts => f ts / c)).sum = (l.map f).sum / c := by
  induction l with
  | nil => simp
  | cons a t ih => simp [ih, add_div]

/-- C6 counterexample: a non-empty selection whose single score is 0 makes
both renormalizations divide by zero; the resulting weights sum to 0, not
1 (in the source, floating arithmetic yields NaN there). -/
theorem pesos_soma_contraexemplo :
    ([("A", (0 : ℚ))] : List (String × ℚ)) ≠ [] ∧
      ((pesos [("A", (0 : ℚ))]).map Prod.snd).sum ≠ 1 := by
  constructor
  · simp
  · norm_num [pesos, limite_porc_ativo]

/-- C6 amended: whenever the selected set is non-empty, its scores are
non-negative and at least one score is positive, the clipped-and-
renormalized weights sum exactly to 1. -/
theorem pesos_soma_um :
    ∀ sel : List (String × ℚ), sel ≠ [] →
      (∀ x ∈ sel, 0 ≤ x.2) → (∃ x ∈ sel, 0 < x.2) →
      ((pesos sel).map Prod.snd).sum = 1 := by
  intro sel hne hnn hex
  obtain ⟨x, hx, hxpos⟩ := hex
  have hsoma : 0 < (sel.map Prod.snd).sum := by
    refine lt_of_lt_of_le hxpos (List.single_le_sum ?_ _
      (List.mem_map_of_mem Prod.snd hx))
    intro b hb
    obtain ⟨y, hy, rfl⟩ := List.mem_map.mp hb
    exact hnn y hy
  have h2 : 0 < (sel.map (fun ts =>
      min (ts.2 / (sel.map Prod.snd).sum) limite_porc_ativo)).sum := by
    refine lt_of_lt_of_le
      (lt_min (div_pos hxpos hsoma) (by norm_num [limite_porc_ativo]))
      (List.single_le_sum ?_ _ (List.mem_map_of_mem _ hx))
    intro b hb
    obtain ⟨y, hy, rfl⟩ := List.mem_map.mp hb
    exact le_min (div_nonneg (hnn y hy) hsoma.le) (by norm_num [limite_porc_ativo])
  unfold pesos
  simp only [List.map_map, Function.comp_def]
  rw [sum_map_div]
  exact div_self (ne_of_gt h2)

theorem pesos_soma_um_witness :
    ((pesos [("A", (10 : ℚ)), ("B", 2)]).map Prod.snd).sum = 1 :=
  pesos_soma_um [("A", 10), ("B", 2)] (by simp) (by norm_num)
    ⟨("A", 10), by simp, by norm_num⟩

lemma comprar_passo (c : String → ℤ) (sel : List String)
    (w pf : String → ℚ) (a : ℚ) (t : String) :
    c t ≤ comprar c sel w pf a t := by
  unfold comprar
  dsimp only
  split_ifs with h
  · refine le_add_of_nonneg_right (Int.le_floor.mpr ?_)
    push_cast
    exact div_nonneg (le_max_left _ _) h.2.le
  · exact le_rfl

/-- C8: the buy step only ever adds a non-negative number of shares, so the
held quantity of every ticker is non-decreasing from one rebalance date to
the next, and across any run of monthly steps. -/
theorem carteira_monotona :
    (∀ (carteira : String → ℤ) (selecionados : List String)
        (peso preco : String → ℚ) (aporte : ℚ) (t : String),
      carteira t ≤ comprar carteira selecionados peso preco aporte t) ∧
    (∀ (selecionados : List String) (peso : String → ℚ)
        (precos : List (String → ℚ)) (aporte : ℚ) (c0 : String → ℤ)
        (t : String),
      c0 t ≤ simular_carteira selecionados peso precos aporte c0 t) := by
  refine ⟨comprar_passo, ?_⟩
  intro sel w precos a c0 t
  induction precos generalizing c0 with
  | nil => exact le_rfl
  | cons pf rest ih =>
    exact le_trans (comprar_passo c0 sel w pf a t)
      (ih (comprar c0 sel w pf a))

lemma comprar_single (c : String → ℤ) (w preco : String → ℚ) (aporte : ℚ)
    (hw : w "T" = 1) (hp : 0 < preco "T") (ha : 0 ≤ aporte) :
    comprar c ["T"] w preco aporte "T" = c "T" + ⌊aporte / preco "T"⌋ := by
  unfold comprar
  dsimp only [List.map_cons, List.map_nil, List.sum_cons, List.sum_nil]
  rw [if_pos ⟨List.mem_singleton.mpr rfl, hp⟩]
  have harg : w "T" * ((c "T" : ℚ) * preco "T" + 0 + aporte) -
      (c "T" : ℚ) * preco "T" = aporte := by rw [hw]; ring
  rw [harg, max_eq_right ha]

lemma simular_single_const (C p : ℚ) (hC : 0 < C) (hp : 0 < p) :
    ∀ (N : ℕ) (c : String → ℤ),
      simular_carteira ["T"] (fun _ => 1) (List.replicate N (fun _ => p)) C c
          "T" =
        c "T" + N * ⌊C / p⌋ := by
  intro N
  induction N with
  | zero => intro c; simp [simular_carteira]
  | succ n ih =>
    intro c
    have hrw : simular_carteira ["T"] (fun _ => 1)
        (List.replicate (n + 1) (fun _ => p)) C c =
        simular_carteira ["T"] (fun _ => 1) (List.replicate n (fun _ => p)) C
          (comprar c ["T"] (fun _ => 1) (fun _ => p) C) := by
      rw [List.replicate_succ]
      rfl
    rw [hrw, ih, comprar_single c (fun _ => 1) (fun _ => p) C rfl hp hC.le]
    push_cast
    ring

lemma selecionar_T : selecionar [("T", (10 : ℚ))] = [("T", 10)] := by
  norm_num [selecionar, List.filter, List.isEmpty_iff]

lemma pesos_T : pesos [("T", (10 : ℚ))] = [("T", 1)] := by
  norm_num [pesos, limite_porc_ativo, min_def]

/-- C7: two rebalance dates with contribution 1000 each and a single
eligible ticker at constant price 10 leave 200 shares worth 2000, and the
benchmark with the same price and contributions is also worth 2000. -/
theorem cenario_dois_aportes :
    simular_carteira ((selecionar [("T", (10 : ℚ))]).map Prod.fst)
        (fun t => ((pesos (selecionar [("T", (10 : ℚ))])).lookup t).getD 0)
        [fun _ => (10 : ℚ), fun _ => (10 : ℚ)] 1000 (fun _ => 0) "T" = 200 ∧
    patrimonio
        (simular_carteira ((selecionar [("T", (10 : ℚ))]).map Prod.fst)
          (fun t => ((pesos (selecionar [("T", (10 : ℚ))])).lookup t).getD 0)
          [fun _ => (10 : ℚ), fun _ => (10 : ℚ)] 1000 (fun _ => 0))
        ((selecionar [("T", (10 : ℚ))]).map Prod.fst) (fun _ => 10) = 2000 ∧
    passo_ibov (passo_ibov 0 10 1000) 10 1000 = 200 ∧
    ((passo_ibov (passo_ibov 0 10 1000) 10 1000 : ℤ) : ℚ) * 10 = 2000 := by
  simp only [selecionar_T, pesos_T, List.map_cons, List.map_nil]
  have hw : (fun t => ((List.lookup t [("T", (1 : ℚ))]).getD 0)) "T" = 1 := by
    simp [List.lookup]
  have h1 := comprar_single (fun _ => 0)
    (fun t => ((List.lookup t [("T", (1 : ℚ))]).getD 0)) (fun _ => 10) 1000
    hw (by norm_num) (by norm_num)
  have h2 := comprar_single
    (comprar (fun _ => 0) ["T"]
      (fun t => ((List.lookup t [("T", (1 : ℚ))]).getD 0)) (fun _ => 10) 1000)
    (fun t => ((List.lookup t [("T", (1 : ℚ))]).getD 0)) (fun _ => 10) 1000
    hw (by norm_num) (by norm_num)
  have hval : simular_carteira ["T"]
      (fun t => ((List.lookup t [("T", (1 : ℚ))]).getD 0))
      [fun _ => (10 : ℚ), fun _ => (10 : ℚ)] 1000 (fun _ => 0) "T" = 200 := by
    show comprar
        (comprar (fun _ => 0) ["T"]
          (fun t => ((List.lookup t [("T", (1 : ℚ))]).getD 0)) (fun _ => 10)
          1000)
        ["T"] (fun t => ((List.lookup t [("T", (1 : ℚ))]).getD 0))
        (fun _ => 10) 1000 "T" = 200
    rw [h2, h1]
    norm_num
  refine ⟨hval, ?_, by norm_num [passo_ibov], by norm_num [passo_ibov]⟩
  simp only [patrimonio, List.map_cons, List.map_nil, List.sum_cons,
    List.sum_nil, add_zero]
  rw [hval]
  norm_num

/-- C9 counterexample: contribution 10 for one month at constant price 3
buys ⌊10/3⌋ = 3 shares, so the final portfolio value is 9, not C×N = 10:
floor-division lots lose the remainder when the price does not divide the
contribution. -/
theorem valor_final_contraexemplo :
    (0 : ℚ) < 10 ∧ (0 : ℚ) < 3 ∧ 1 ≤ 1 ∧
      ((simular_carteira ["T"] (fun _ => 1) (List.replicate 1 (fun _ => (3 : ℚ)))
            10 (fun _ => 0) "T" : ℤ) : ℚ) * 3 ≠ 10 * 1 := by
  refine ⟨by norm_num, by norm_num, le_rfl, ?_⟩
  rw [simular_single_const 10 3 (by norm_num) (by norm_num) 1 (fun _ => 0)]
  norm_num

/-- C9 amended: with a positive contribution C, N ≥ 1 months and a constant
positive price that divides C exactly, the final portfolio value equals
C×N and the CAGR `(final/total)^(1/years) − 1` equals 0. -/
theorem valor_final_e_cagr_sem_variacao :
    ∀ (C p : ℚ) (N : ℕ), 0 < C → 0 < p → 1 ≤ N → (⌊C / p⌋ : ℚ) * p = C →
      (((simular_carteira ["T"] (fun _ => 1) (List.replicate N (fun _ => p)) C
            (fun _ => 0) "T" : ℤ) : ℚ) * p = C * N ∧
        ∀ anos : ℝ, cagr (C * N) (C * N) anos = 0) := by
  intro C p N hC hp hN hdvd
  constructor
  · rw [simular_single_const C p hC hp N (fun _ => 0)]
    push_cast
    rw [zero_add, mul_assoc, hdvd, mul_comm]
  · intro anos
    have hN0 : 0 < (N : ℚ) := by exact_mod_cast Nat.lt_of_lt_of_le Nat.zero_lt_one hN
    have hne : ((C * N : ℚ) : ℝ) ≠ 0 := by
      have : (0 : ℚ) < C * N := mul_pos hC hN0
      exact_mod_cast ne_of_gt this
    unfold cagr
    rw [div_self hne, Real.one_rpow]
    norm_num

theorem valor_final_e_cagr_sem_variacao_witness :
    ((simular_carteira ["T"] (fun _ => 1)
          (List.replicate 2 (fun _ => (10 : ℚ))) 1000 (fun _ => 0) "T" : ℤ) :
        ℚ) * 10 = 1000 * 2 ∧
      cagr (1000 * 2) (1000 * 2) 1 = 0 :=
  ⟨(valor_final_e_cagr_sem_variacao 1000 10 2 (by norm_num) (by norm_num)
      (by norm_num) (by norm_num)).1,
    (valor_final_e_cagr_sem_variacao 1000 10 2 (by norm_num) (by norm_num)
      (by norm_num) (by norm_num)).2 1⟩

/-! ## Pipeline defaults for DividendYield and Payout -/

/-- The `DividendYield` assignment of `calcular_metricas_fundamentalistas`
(Picks.py): `info.get('dividendYield', 0) * 100 if info.get('dividendYield')
else 0` — a missing or zero raw yield reads as 0, otherwise yield × 100.
The result is always a number, never `None`. -/
def metricas_dividend_yield (info_dividendYield : Option ℚ) : ℚ :=
  match info_dividendYield with
  | some v => if v ≠ 0 then v * 100 else 0
  | none => 0

/-- The `Payout` assignment of `calcular_metricas_fundamentalistas`
(Picks.py): `payoutRatio * 100` when the key is present and non-zero,
otherwise 0.  The result is always a number, never `None`. -/
def metricas_payout (info_payoutRatio : Option ℚ) : ℚ :=
  match info_payoutRatio with
  | some v => if v ≠ 0 then v * 100 else 0
  | none => 0

/-- C10: on a record whose `DividendYield` and `Payout` fields carry the
pipeline's numeric defaults (hence are present for every raw input), any
weight map with positive `DividendYield` and `Payout` weights gives a
strictly positive scoring denominator, so `calcular_pontuacao` takes its
division branch and the zero-denominator default is unreachable. -/
theorem dy_payout_denominador_positivo :
    ∀ (m : Metricas) (p : Pesos) (idy ipo : Option ℚ),
      m.DividendYield = some (metricas_dividend_yield idy) →
      m.Payout = some (metricas_payout ipo) →
      PesosNonneg p → 0 < p.DividendYield → 0 < p.Payout →
      0 < peso_total m p ∧
        calcular_pontuacao m p = pontuacao_total m p / peso_total m p := by
  intro m p idy ipo hdy hpo hp hdw hpw
  have h1 : critDen m.DividendYield p.DividendYield = p.DividendYield := by
    rw [hdy]; rfl
  have h2 : critDen m.Payout p.Payout = p.Payout := by
    rw [hpo]; rfl
  obtain ⟨g1, g2, g3, g4, g5, g6, g7, g8, g9, g10, g11⟩ := hp
  have hpos : 0 < peso_total m p := by
    unfold peso_total
    rw [h1, h2]
    have := critDen_nonneg m.ROE g1
    have := critDen_nonneg m.ROIC g2
    have := critDen_nonneg m.MargemLiquida g3
    have := critDen_nonneg m.CrescimentoLucros g4
    have := critDen_nonneg m.PL g5
    have := critDen_nonneg m.PVP g6
    have := critDen_nonneg m.EV_EBITDA g7
    have := critDen_nonneg m.DividaPatrimonio g9
    have := critDen_nonneg m.LiquidezCorrente g10
    linarith
  exact ⟨hpos, by rw [calcular_pontuacao_eq, if_pos hpos]⟩

theorem dy_payout_denominador_positivo_witness :
    0 < peso_total
        { metricasVazias with
            DividendYield := some (metricas_dividend_yield none),
            Payout := some (metricas_payout none) } obter_pesos_padrao ∧
      calcular_pontuacao
          { metricasVazias with
              DividendYield := some (metricas_dividend_yield none),
              Payout := some (metricas_payout none) } obter_pesos_padrao =
        pontuacao_total
            { metricasVazias with
                DividendYield := some (metricas_dividend_yield none),
                Payout := some (metricas_payout none) } obter_pesos_padrao /
          peso_total
            { metricasVazias with
                DividendYield := some (metricas_dividend_yield none),
                Payout := some (metricas_payout none) } obter_pesos_padrao :=
  dy_payout_denominador_positivo _ obter_pesos_padrao none none rfl rfl
    (by norm_num [PesosNonneg, obter_pesos_padrao])
    (by norm_num [obter_pesos_padrao]) (by norm_num [obter_pesos_padrao])
